import Mathlib

/-!
# UserManagement.jsx: the record-management state machine

A shallow embedding of the component `UserManagement` of
`src/UserManagement.jsx`.

* The five `useState` cells (`users`, `loading`, `isEditing`, `selectedId`,
  `formData`) form the record `State`.
* Every handler is a function from the values its closure reads (and from the
  outcome of each request it awaits) to the list of effects it performs, in
  program order: calls of the state setters, of `axios`, of `alert`,
  `confirm`, `console.error` and `window.scrollTo`.
* The state after a handler is the state before it with the setter calls of
  that list applied in order (`State.after`).
-/

namespace UserManagement

/-! ## Data -/

/-- The constant `Number.MAX_SAFE_INTEGER`, `2^53 - 1`: the largest integer up
to which every integer is a JavaScript number. -/
def maxSafeInteger : Nat := 9007199254740991

/-- The value of a record's `_id`: a JSON string, or a JSON number that is a
non-negative integer no larger than `Number.MAX_SAFE_INTEGER`. -/
inductive Identifier
  | num (n : Fin (maxSafeInteger + 1))
  | str (s : String)
  deriving DecidableEq, Repr

/-- What a template literal prints for an identifier: a string as it is, and a
non-negative safe integer as its decimal digits (JavaScript switches to the
exponent form only from `10^21` on, far above `Number.MAX_SAFE_INTEGER`). -/
def Identifier.render : Identifier → String
  | .num n => toString n.val
  | .str s => s

/-- What the template literal of `handleSubmit` prints for `selectedId`, which
is `null` until `startEdit` stores an identifier. -/
def renderSelected : Option Identifier → String
  | none => "null"
  | some i => i.render

/-- A record as the list request returns it. The component reads `_id`,
`username`, `email`, `firstname`, `lastname` and `status`. Every record carries
its `_id` (it is the row key and the argument of `handleDelete`) and the four
strings; `status` may be missing. -/
structure UserRecord where
  _id : Identifier
  username : String
  email : String
  firstname : String
  lastname : String
  status : Option String
  deriving DecidableEq, Repr

/-- The object held in the `formData` cell. Every `setFormData` call of the
component stores an object with exactly these five keys, in this order. -/
structure FormData where
  username : String
  email : String
  password : String
  firstname : String
  lastname : String
  deriving DecidableEq, Repr

/-- The names of the five inputs of the form. -/
inductive Field
  | username
  | email
  | password
  | firstname
  | lastname
  deriving DecidableEq, Repr

/-- A request body: the keys of a JavaScript object with their values, in
insertion order. -/
abbrev Payload := List (String × String)

/-- The rejection of an `axios` call. `message` is what
`err.response?.data?.message` evaluates to: `none` when the response, its data
or the message is missing. -/
structure HttpError where
  message : Option String
  deriving DecidableEq, Repr

/-- The effects a handler can perform. -/
inductive Event
  | setUsers (us : List UserRecord)
  | setLoading (b : Bool)
  | setIsEditing (b : Bool)
  | setSelectedId (i : Option Identifier)
  | setFormData (d : FormData)
  | httpGet (url : String)
  | httpPost (url : String) (body : Payload)
  | httpPut (url : String) (body : Payload)
  | httpDelete (url : String)
  | alert (msg : String)
  | confirm (msg : String)
  | consoleError (tag : String)
  | scrollTo
  | preventDefault
  deriving DecidableEq, Repr

/-- The five `useState` cells of the component. -/
structure State where
  users : List UserRecord
  loading : Bool
  isEditing : Bool
  selectedId : Option Identifier
  formData : FormData
  deriving DecidableEq, Repr

/-! ## JavaScript operators on strings -/

/-- Truthiness of a string: every string but the empty one. -/
def truthy (s : String) : Bool := s != ""

/-- The expression `a || b` on strings. -/
def jsOr (a b : String) : String := if truthy a then a else b

/-- The expression `m || b` where `m` is a string or `undefined`. -/
def jsOrUndefined (m : Option String) (b : String) : String :=
  match m with
  | some a => jsOr a b
  | none => b

/-! ## Constants and initial values -/

/-- The constant `API_URL`. -/
def API_URL : String := "http://localhost:3000/api/user"

/-- The object with five empty strings that `useState` and `resetForm` store in
`formData`. -/
def emptyForm : FormData :=
  { username := "", email := "", password := "", firstname := "", lastname := "" }

/-- The initial values of the five `useState` cells. -/
def initialState : State :=
  { users := [], loading := true, isEditing := false, selectedId := none,
    formData := emptyForm }

/-! ## Request bodies -/

/-- The `formData` object as a request body. -/
def FormData.toPayload (d : FormData) : Payload :=
  [("username", d.username), ("email", d.email), ("password", d.password),
   ("firstname", d.firstname), ("lastname", d.lastname)]

/-- The spread `...(formData.password ? { password: formData.password } : {})`. -/
def passwordSpread (d : FormData) : Payload :=
  if truthy d.password then [("password", d.password)] else []

/-- The object literal passed to `axios.put`. -/
def putBody (d : FormData) : Payload :=
  [("email", d.email), ("firstname", d.firstname), ("lastname", d.lastname)]
    ++ passwordSpread d

/-- The object `{ ...formData, [k]: v }` of the `onChange` handlers. -/
def FormData.set (d : FormData) (k : Field) (v : String) : FormData :=
  match k with
  | .username => { d with username := v }
  | .email => { d with email := v }
  | .password => { d with password := v }
  | .firstname => { d with firstname := v }
  | .lastname => { d with lastname := v }

/-! ## Handlers -/

/-- The function `fetchUsers`, given the outcome of `axios.get(API_URL)`. -/
def fetchUsers (res : Except HttpError (List UserRecord)) : List Event :=
  [.setLoading true, .httpGet API_URL]
    ++ (match res with
        | .ok data => [.setUsers data]
        | .error _ => [.consoleError "Fetch error:", .alert "Failed to load users"])
    ++ [.setLoading false]

/-- The function `resetForm`. -/
def resetForm : List Event :=
  [.setIsEditing false, .setSelectedId none, .setFormData emptyForm]

/-- The function `startEdit`. -/
def startEdit (user : UserRecord) : List Event :=
  [.setIsEditing true,
   .setSelectedId (some user._id),
   .setFormData
     { username := jsOr user.username "",
       email := jsOr user.email "",
       password := "",
       firstname := jsOr user.firstname "",
       lastname := jsOr user.lastname "" },
   .scrollTo]

/-- The `onChange` handler of the input `k`, receiving `e.target.value = v`. -/
def updateField (s : State) (k : Field) (v : String) : List Event :=
  [.setFormData (s.formData.set k v)]

/-- The request `handleSubmit` issues inside its `try`: the `axios.put` of the
editing branch or the `axios.post` of the other. -/
def submitRequest (s : State) : Event :=
  if s.isEditing then
    .httpPut (API_URL ++ "?id=" ++ renderSelected s.selectedId) (putBody s.formData)
  else
    .httpPost API_URL s.formData.toPayload

/-- The function `handleSubmit`, given the outcome `res` of the awaited
`axios.put` / `axios.post` and the outcome `list` of the request of the
`fetchUsers()` it starts on success. -/
def handleSubmit (s : State) (res : Except HttpError Unit)
    (list : Except HttpError (List UserRecord)) : List Event :=
  [.preventDefault, submitRequest s]
    ++ (match res with
        | .ok _ => resetForm ++ fetchUsers list
        | .error err => [.alert (jsOrUndefined err.message "Operation failed")])

/-- The function `handleDelete`, given the answer `confirmed` of
`window.confirm`, the outcome `res` of the awaited `axios.delete` and the
outcome `list` of the request of the `fetchUsers()` it starts on success. -/
def handleDelete (id : Identifier) (confirmed : Bool) (res : Except HttpError Unit)
    (list : Except HttpError (List UserRecord)) : List Event :=
  Event.confirm "Are you sure you want to delete this user?" ::
    (if confirmed then
      Event.httpDelete (API_URL ++ "?id=" ++ id.render) ::
        (match res with
         | .ok _ => fetchUsers list
         | .error err =>
           [.consoleError "Delete error:",
            .alert (jsOrUndefined err.message "Delete failed")])
    else [])

/-! ## Effects on the state -/

/-- The effect of one event on the state: a setter call replaces its cell,
everything else leaves the state alone. -/
def applyEvent (s : State) : Event → State
  | .setUsers us => { s with users := us }
  | .setLoading b => { s with loading := b }
  | .setIsEditing b => { s with isEditing := b }
  | .setSelectedId i => { s with selectedId := i }
  | .setFormData d => { s with formData := d }
  | _ => s

/-- The state after a list of events. -/
def State.after (s : State) (es : List Event) : State := es.foldl applyEvent s

/-! ## Observations on a list of events -/

/-- The network calls: the four `axios` methods. -/
def Event.isRequest : Event → Bool
  | .httpGet _ => true
  | .httpPost _ _ => true
  | .httpPut _ _ => true
  | .httpDelete _ => true
  | _ => false

/-- The calls that change the remote collection: `axios.post`, `axios.put`,
`axios.delete`. -/
def Event.isMutation : Event → Bool
  | .httpPost _ _ => true
  | .httpPut _ _ => true
  | .httpDelete _ => true
  | _ => false

/-- The list request `axios.get`. -/
def Event.isRefreshCall : Event → Bool
  | .httpGet _ => true
  | _ => false

/-- The create request `axios.post`. -/
def Event.isCreateCall : Event → Bool
  | .httpPost _ _ => true
  | _ => false

/-- The calls of the five state setters. -/
def Event.isSetter : Event → Bool
  | .setUsers _ => true
  | .setLoading _ => true
  | .setIsEditing _ => true
  | .setSelectedId _ => true
  | .setFormData _ => true
  | _ => false

/-- The setter calls of the form cells `isEditing`, `selectedId`, `formData`. -/
def Event.isFormSetter : Event → Bool
  | .setIsEditing _ => true
  | .setSelectedId _ => true
  | .setFormData _ => true
  | _ => false

/-- The call that stores the all-empty draft. -/
def Event.isDraftReset : Event → Bool
  | .setFormData d => decide (d = emptyForm)
  | _ => false

/-- The notices shown to the operator: `alert`. -/
def Event.isNotice : Event → Bool
  | .alert _ => true
  | _ => false

/-- The network calls of a list of events, in order. -/
def requests (t : List Event) : List Event := t.filter Event.isRequest

/-- The mutation calls of a list of events, in order. -/
def mutations (t : List Event) : List Event := t.filter Event.isMutation

/-- The address and body of each `axios.put` of a list of events, in order. -/
def putCalls (t : List Event) : List (String × Payload) :=
  t.filterMap fun e =>
    match e with
    | .httpPut url body => some (url, body)
    | _ => none

/-- Exactly one create call, then exactly one refresh call, then the draft
reset: the first create call comes before the first refresh call, which comes
before the first (and present) call that empties the draft. -/
def createRefreshReset (t : List Event) : Prop :=
  t.countP Event.isCreateCall = 1 ∧ t.countP Event.isRefreshCall = 1 ∧
  t.findIdx Event.isCreateCall < t.findIdx Event.isRefreshCall ∧
  t.findIdx Event.isRefreshCall < t.findIdx Event.isDraftReset ∧
  t.findIdx Event.isDraftReset < t.length

instance : DecidablePred createRefreshReset := fun t => by
  unfold createRefreshReset; infer_instance

/-- Exactly one create call, then the draft reset, then exactly one refresh
call: the first create call comes before the first call that empties the
draft, which comes before the first (and present) refresh call. -/
def createResetRefresh (t : List Event) : Prop :=
  t.countP Event.isCreateCall = 1 ∧ t.countP Event.isRefreshCall = 1 ∧
  t.findIdx Event.isCreateCall < t.findIdx Event.isDraftReset ∧
  t.findIdx Event.isDraftReset < t.findIdx Event.isRefreshCall ∧
  t.findIdx Event.isRefreshCall < t.length

instance : DecidablePred createResetRefresh := fun t => by
  unfold createResetRefresh; infer_instance

/-! ## The component as a machine -/

/-- The operations of the component, each with the outcomes of the requests
and dialogs it meets. -/
inductive Op
  | beginEdit (r : UserRecord)
  | reset
  | updateField (k : Field) (v : String)
  | submit (res : Except HttpError Unit) (list : Except HttpError (List UserRecord))
  | remove (id : Identifier) (confirmed : Bool) (res : Except HttpError Unit)
      (list : Except HttpError (List UserRecord))
  | refresh (list : Except HttpError (List UserRecord))

/-- The events of an operation started in state `s`. -/
def Op.events (s : State) : Op → List Event
  | .beginEdit r => startEdit r
  | .reset => resetForm
  | .updateField k v => UserManagement.updateField s k v
  | .submit res list => handleSubmit s res list
  | .remove id confirmed res list => handleDelete id confirmed res list
  | .refresh list => fetchUsers list

/-- The state after one operation. -/
def step (s : State) (op : Op) : State := s.after (op.events s)

/-- The state after a sequence of operations. -/
def run (s : State) (ops : List Op) : State := ops.foldl step s

/-- The session invariant: the form is in create mode (`isEditing = false`)
exactly when no record is selected (`selectedId = null`). -/
def sessionInv (s : State) : Prop := s.isEditing = false ↔ s.selectedId = none

/-! ## The same machine between two `await`s

A handler runs up to its `await` and resumes when the request settles; events
of other handlers may come in between. A segment is a piece of a handler that
runs without interruption. -/

/-- The part of `fetchUsers` before its `await`. -/
def fetchUsersStart : List Event := [.setLoading true, .httpGet API_URL]

/-- The part of `fetchUsers` after its `await`: the rest of the `try`, or the
`catch`, then the `finally`. -/
def fetchUsersSettled (res : Except HttpError (List UserRecord)) : List Event :=
  (match res with
   | .ok data => [.setUsers data]
   | .error _ => [.consoleError "Fetch error:", .alert "Failed to load users"])
    ++ [.setLoading false]

/-- The part of `handleSubmit` before its `await`. -/
def handleSubmitStart (s : State) : List Event := [.preventDefault, submitRequest s]

/-- The part of `handleSubmit` after its `await`: the rest of the `try`, which
ends with `fetchUsers()` run up to its own `await`, or the `catch`. -/
def handleSubmitSettled (res : Except HttpError Unit) : List Event :=
  match res with
  | .ok _ => resetForm ++ fetchUsersStart
  | .error err => [.alert (jsOrUndefined err.message "Operation failed")]

/-- The part of `handleDelete` before its `await`; all of it when the
confirmation is declined. -/
def handleDeleteStart (id : Identifier) (confirmed : Bool) : List Event :=
  Event.confirm "Are you sure you want to delete this user?" ::
    (if confirmed then [Event.httpDelete (API_URL ++ "?id=" ++ id.render)] else [])

/-- The part of `handleDelete` after its `await`: `fetchUsers()` run up to its
own `await`, or the `catch`. -/
def handleDeleteSettled (res : Except HttpError Unit) : List Event :=
  match res with
  | .ok _ => fetchUsersStart
  | .error err =>
    [.consoleError "Delete error:", .alert (jsOrUndefined err.message "Delete failed")]

/-- The uninterrupted pieces of the handlers. -/
inductive Segment
  | fetchStart
  | fetchSettled (list : Except HttpError (List UserRecord))
  | startEdit (user : UserRecord)
  | resetForm
  | change (k : Field) (v : String)
  | submitStart
  | submitSettled (res : Except HttpError Unit)
  | deleteStart (id : Identifier) (confirmed : Bool)
  | deleteSettled (res : Except HttpError Unit)

/-- The events of a segment run in state `s`. -/
def Segment.events (s : State) : Segment → List Event
  | .fetchStart => fetchUsersStart
  | .fetchSettled list => fetchUsersSettled list
  | .startEdit user => UserManagement.startEdit user
  | .resetForm => UserManagement.resetForm
  | .change k v => updateField s k v
  | .submitStart => handleSubmitStart s
  | .submitSettled res => handleSubmitSettled res
  | .deleteStart id confirmed => handleDeleteStart id confirmed
  | .deleteSettled res => handleDeleteSettled res

/-- The state after one segment. -/
def stepSegment (s : State) (g : Segment) : State := s.after (g.events s)

/-- The state after a sequence of segments, in any interleaving. -/
def runSegments (s : State) (gs : List Segment) : State := gs.foldl stepSegment s

/-- The segments an operation consists of when nothing comes in between. -/
def Op.segments : Op → List Segment
  | .beginEdit r => [.startEdit r]
  | .reset => [.resetForm]
  | .updateField k v => [.change k v]
  | .submit (.ok u) list => [.submitStart, .submitSettled (.ok u), .fetchSettled list]
  | .submit (.error err) _ => [.submitStart, .submitSettled (.error err)]
  | .remove id true (.ok u) list =>
    [.deleteStart id true, .deleteSettled (.ok u), .fetchSettled list]
  | .remove id true (.error err) _ => [.deleteStart id true, .deleteSettled (.error err)]
  | .remove id false _ _ => [.deleteStart id false]
  | .refresh list => [.fetchStart, .fetchSettled list]

/-! ## Sample values -/

/-- The record of the edit scenario. -/
def alice : UserRecord :=
  { _id := .num 1, username := "alice", email := "a@x.com", firstname := "Alice",
    lastname := "A", status := none }

/-- A state in edit mode with a new password typed. -/
def editingWithPassword : State :=
  { users := [alice], loading := false, isEditing := true, selectedId := some (.num 1),
    formData := { username := "alice", email := "a@x.com", password := "s3cret",
                  firstname := "Alice", lastname := "A" } }

/-- A state in create mode with the required inputs filled. -/
def creatingBob : State :=
  { users := [alice], loading := false, isEditing := false, selectedId := none,
    formData := { username := "bob", email := "b@x.com", password := "pw",
                  firstname := "", lastname := "" } }

/-! ## Lemmas -/

/-- On a string, `a || ""` is `a`. -/
theorem jsOr_empty (a : String) : jsOr a "" = a := by
  unfold jsOr truthy
  by_cases h : a = ""
  · simp [h]
  · simp [h]

/-- A string is truthy exactly when it is not empty. -/
theorem truthy_iff (a : String) : truthy a = true ↔ a ≠ "" := by
  simp [truthy]

/-- The request of `handleSubmit` is no setter call. -/
theorem applyEvent_submitRequest (s0 s : State) : applyEvent s0 (submitRequest s) = s0 := by
  by_cases h : s.isEditing = true <;> simp [submitRequest, h, applyEvent]

/-! ## The claims -/

/-- C1: when `handleSubmit` runs in edit mode, whatever the selected identifier
and the outcomes of the requests, it issues exactly one update call, whose body
has a `password` key if and only if the draft's password is non-empty, and the
value under that key is the draft's password. -/
theorem handleSubmit_edit_password_key (s : State) (res : Except HttpError Unit)
    (list : Except HttpError (List UserRecord)) (h : s.isEditing = true) :
    ∃ url body, putCalls (handleSubmit s res list) = [(url, body)] ∧
      ((∃ v, ("password", v) ∈ body) ↔ s.formData.password ≠ "") ∧
      (∀ v, ("password", v) ∈ body → v = s.formData.password) := by
  refine ⟨API_URL ++ "?id=" ++ renderSelected s.selectedId, putBody s.formData, ?_, ?_, ?_⟩
  · cases res <;> cases list <;>
      simp [handleSubmit, submitRequest, h, putCalls, resetForm, fetchUsers]
  · by_cases hp : s.formData.password = "" <;>
      simp [putBody, passwordSpread, truthy, hp]
  · intro v hv
    by_cases hp : s.formData.password = "" <;>
      simp [putBody, passwordSpread, truthy, hp] at hv
    exact hv

/-- Witness of C1 in a state in edit mode whose draft holds the password
`s3cret`. -/
theorem handleSubmit_edit_password_key_witness :
    editingWithPassword.isEditing = true ∧
    ∃ url body, putCalls (handleSubmit editingWithPassword (.ok ()) (.ok [])) = [(url, body)] ∧
      ((∃ v, ("password", v) ∈ body) ↔ editingWithPassword.formData.password ≠ "") ∧
      (∀ v, ("password", v) ∈ body → v = editingWithPassword.formData.password) :=
  ⟨rfl, handleSubmit_edit_password_key editingWithPassword (.ok ()) (.ok []) rfl⟩

/-- C2: from the initial form state (whatever the cache holds), `startEdit r`,
then typing `e` into the email input, then a `handleSubmit` whose request
succeeds issues exactly two network calls: one `axios.put` addressed to
`/api/user?id=<r._id>` on the configured origin, whose body has exactly the
keys `email`, `firstname`, `lastname` with the values `e`, `r.firstname`,
`r.lastname` (so neither `password` nor `username`), and after it the list
request of the refresh. The whole run is that update call, the three setter
calls that empty the form, and then the refresh: loading flag set, list
request, cache replaced by the answer (or the failure logged and announced),
loading flag cleared; after it the loading flag is false and, when the list
request succeeds, the cache holds the answer. -/
theorem edit_email_then_submit (us : List UserRecord) (ld : Bool) (r : UserRecord)
    (e : String) (list : Except HttpError (List UserRecord)) :
    let s0 : State :=
      { users := us, loading := ld, isEditing := initialState.isEditing,
        selectedId := initialState.selectedId, formData := initialState.formData }
    let s1 := s0.after (startEdit r)
    let s2 := s1.after (updateField s1 .email e)
    requests (handleSubmit s2 (.ok ()) list) =
      [.httpPut ("http://localhost:3000" ++ "/api/user?id=" ++ r._id.render)
          [("email", e), ("firstname", r.firstname), ("lastname", r.lastname)],
       .httpGet "http://localhost:3000/api/user"] ∧
    handleSubmit s2 (.ok ()) list =
      [.preventDefault,
       .httpPut ("http://localhost:3000" ++ "/api/user?id=" ++ r._id.render)
          [("email", e), ("firstname", r.firstname), ("lastname", r.lastname)],
       .setIsEditing false,
       .setSelectedId none,
       .setFormData
         { username := "", email := "", password := "", firstname := "", lastname := "" },
       .setLoading true,
       .httpGet "http://localhost:3000/api/user"]
      ++ (match list with
          | .ok data => [.setUsers data]
          | .error _ => [.consoleError "Fetch error:", .alert "Failed to load users"])
      ++ [.setLoading false] ∧
    (s2.after (handleSubmit s2 (.ok ()) list)).loading = false ∧
    (∀ data, list = .ok data → (s2.after (handleSubmit s2 (.ok ()) list)).users = data) ∧
    (∀ err, list = .error err → (s2.after (handleSubmit s2 (.ok ()) list)).users = us) := by
  intro s0 s1 s2
  have hurl : API_URL ++ "?id=" ++ r._id.render
      = "http://localhost:3000" ++ "/api/user?id=" ++ r._id.render := by
    have h0 : API_URL ++ "?id=" = "http://localhost:3000" ++ "/api/user?id=" := by decide
    rw [h0]
  have hget : API_URL = "http://localhost:3000/api/user" := rfl
  cases list <;>
    simp [s2, s1, s0, handleSubmit, submitRequest, requests, resetForm, fetchUsers,
      State.after, applyEvent, startEdit, updateField, FormData.set, putBody,
      passwordSpread, truthy, renderSelected, jsOr_empty, Event.isRequest, hurl, hget,
      emptyForm]

/-- Witness of C2: the record `alice` with identifier `1` and the new email
`alice@new.com`; the update call goes to `/api/user?id=1`. -/
theorem edit_email_then_submit_witness :
    let s0 : State :=
      { users := [alice], loading := false, isEditing := initialState.isEditing,
        selectedId := initialState.selectedId, formData := initialState.formData }
    let s1 := s0.after (startEdit alice)
    let s2 := s1.after (updateField s1 .email "alice@new.com")
    requests (handleSubmit s2 (.ok ()) (.ok [])) =
      [.httpPut "http://localhost:3000/api/user?id=1"
          [("email", "alice@new.com"), ("firstname", "Alice"), ("lastname", "A")],
       .httpGet "http://localhost:3000/api/user"] :=
  (edit_email_then_submit [alice] false alice "alice@new.com" (.ok [])).1

/-- C3: in create mode `handleSubmit` issues exactly one mutation call,
whatever the outcomes: an `axios.post` to the collection address (no `id`
parameter) whose body has exactly the five keys `username`, `email`,
`password`, `firstname`, `lastname`, each with the draft's value. -/
theorem handleSubmit_create_body (s : State) (res : Except HttpError Unit)
    (list : Except HttpError (List UserRecord)) (h : s.isEditing = false) :
    mutations (handleSubmit s res list) =
      [.httpPost "http://localhost:3000/api/user"
        [("username", s.formData.username), ("email", s.formData.email),
         ("password", s.formData.password), ("firstname", s.formData.firstname),
         ("lastname", s.formData.lastname)]] := by
  cases res <;> cases list <;>
    simp [handleSubmit, submitRequest, h, mutations, resetForm, fetchUsers,
      FormData.toPayload, Event.isMutation, API_URL]

/-- Witness of C3 in a state in create mode, with two inputs left empty. -/
theorem handleSubmit_create_body_witness :
    creatingBob.isEditing = false ∧
    mutations (handleSubmit creatingBob (.ok ()) (.ok [])) =
      [.httpPost "http://localhost:3000/api/user"
        [("username", "bob"), ("email", "b@x.com"), ("password", "pw"),
         ("firstname", ""), ("lastname", "")]] :=
  ⟨rfl, handleSubmit_create_body creatingBob (.ok ()) (.ok []) rfl⟩

/-- C4: when the request of `handleSubmit` fails, and when the request of
`handleDelete` fails, the handler calls no setter and no list request, so the
state after it is the state before it (draft, mode, selected identifier, cached
records and loading flag). -/
theorem failed_mutation_leaves_state (s : State) (err : HttpError)
    (list : Except HttpError (List UserRecord)) (id : Identifier) (confirmed : Bool) :
    s.after (handleSubmit s (.error err) list) = s ∧
    (handleSubmit s (.error err) list).countP Event.isSetter = 0 ∧
    (handleSubmit s (.error err) list).countP Event.isRefreshCall = 0 ∧
    s.after (handleDelete id confirmed (.error err) list) = s ∧
    (handleDelete id confirmed (.error err) list).countP Event.isSetter = 0 ∧
    (handleDelete id confirmed (.error err) list).countP Event.isRefreshCall = 0 := by
  refine ⟨?_, ?_, ?_, ?_, ?_, ?_⟩
  · by_cases h : s.isEditing = true <;>
      simp [handleSubmit, submitRequest, h, State.after, applyEvent]
  · by_cases h : s.isEditing = true <;>
      simp [handleSubmit, submitRequest, h, Event.isSetter]
  · by_cases h : s.isEditing = true <;>
      simp [handleSubmit, submitRequest, h, Event.isRefreshCall]
  · cases confirmed <;> simp [handleDelete, State.after, applyEvent]
  · cases confirmed <;> simp [handleDelete, Event.isSetter]
  · cases confirmed <;> simp [handleDelete, Event.isRefreshCall]

/-- C5: in either mode, when its request succeeds `handleSubmit` performs,
after the mutation call, the reset and then the refresh, in that order and once
each. Its events are: the mutation call (its only one); the three setter calls
of the reset (mode to create, selected identifier to `null`, draft to five
empty strings), which are its only calls of the form setters; then the
refresh: loading flag set, the list request (its only one), the cache replaced
by the answer or the failure logged and announced, loading flag cleared.
After it the form is in create mode with no identifier selected and an empty
draft, the loading flag is false, and the cache holds the answer of the list
request, or what it held before when that request fails. -/
theorem handleSubmit_success_reset_then_refresh (s : State)
    (list : Except HttpError (List UserRecord)) :
    (∃ call, call.isMutation = true ∧
      handleSubmit s (.ok ()) list =
        [.preventDefault,
         call,
         .setIsEditing false,
         .setSelectedId none,
         .setFormData
           { username := "", email := "", password := "", firstname := "", lastname := "" },
         .setLoading true,
         .httpGet "http://localhost:3000/api/user"]
        ++ (match list with
            | .ok data => [.setUsers data]
            | .error _ => [.consoleError "Fetch error:", .alert "Failed to load users"])
        ++ [.setLoading false] ∧
      mutations (handleSubmit s (.ok ()) list) = [call]) ∧
    (handleSubmit s (.ok ()) list).filter Event.isFormSetter =
      [.setIsEditing false,
       .setSelectedId none,
       .setFormData
         { username := "", email := "", password := "", firstname := "", lastname := "" }] ∧
    requests (handleSubmit s (.ok ()) list) =
      (handleSubmit s (.ok ()) list).filter Event.isMutation
        ++ [.httpGet "http://localhost:3000/api/user"] ∧
    (s.after (handleSubmit s (.ok ()) list)).isEditing = false ∧
    (s.after (handleSubmit s (.ok ()) list)).selectedId = none ∧
    (s.after (handleSubmit s (.ok ()) list)).formData =
      { username := "", email := "", password := "", firstname := "", lastname := "" } ∧
    (s.after (handleSubmit s (.ok ()) list)).loading = false ∧
    (∀ data, list = .ok data → (s.after (handleSubmit s (.ok ()) list)).users = data) ∧
    (∀ err, list = .error err →
      (s.after (handleSubmit s (.ok ()) list)).users = s.users) := by
  have hget : API_URL = "http://localhost:3000/api/user" := rfl
  refine ⟨⟨submitRequest s, ?_, ?_, ?_⟩, ?_, ?_, ?_, ?_, ?_, ?_, ?_, ?_⟩
  · by_cases h : s.isEditing = true <;> simp [submitRequest, h, Event.isMutation]
  · cases list <;> simp [handleSubmit, resetForm, fetchUsers, emptyForm, hget]
  · by_cases h : s.isEditing = true <;> cases list <;>
      simp [handleSubmit, submitRequest, h, mutations, resetForm, fetchUsers,
        Event.isMutation]
  · by_cases h : s.isEditing = true <;> cases list <;>
      simp [handleSubmit, submitRequest, h, resetForm, fetchUsers, Event.isFormSetter,
        emptyForm]
  · by_cases h : s.isEditing = true <;> cases list <;>
      simp [handleSubmit, submitRequest, h, requests, resetForm, fetchUsers,
        Event.isRequest, Event.isMutation, hget]
  all_goals
    cases list <;>
      simp only [handleSubmit, resetForm, fetchUsers, State.after, List.cons_append,
        List.nil_append, List.append_assoc, List.foldl_cons, List.foldl_nil,
        List.foldl_append, applyEvent_submitRequest] <;>
      simp [applyEvent, emptyForm]

/-- C6 as stated fails: in create mode with `username`, `email` and `password`
filled, a successful `handleSubmit` does not empty the draft after the list
request; the call that empties the draft comes before it. -/
theorem create_submit_resets_before_refresh :
    creatingBob.isEditing = false ∧ creatingBob.formData.username ≠ "" ∧
    creatingBob.formData.email ≠ "" ∧ creatingBob.formData.password ≠ "" ∧
    ¬ createRefreshReset (handleSubmit creatingBob (.ok ()) (.ok [alice])) := by
  decide

/-- C6, amended: in create mode with non-empty `username`, `email` and
`password`, a successful `handleSubmit` issues exactly one create call, then
empties the draft, then issues exactly one list request, in that order. -/
theorem handleSubmit_create_order (s : State) (list : Except HttpError (List UserRecord))
    (h : s.isEditing = false) (_hu : s.formData.username ≠ "")
    (_he : s.formData.email ≠ "") (_hp : s.formData.password ≠ "") :
    createResetRefresh (handleSubmit s (.ok ()) list) := by
  cases list <;>
    simp [createResetRefresh, handleSubmit, submitRequest, h, resetForm, fetchUsers,
      List.findIdx_cons, Event.isCreateCall, Event.isRefreshCall, Event.isDraftReset]

/-- Witness of the amended C6 in a state in create mode with the three inputs
filled. -/
theorem handleSubmit_create_order_witness :
    creatingBob.isEditing = false ∧ creatingBob.formData.username ≠ "" ∧
    creatingBob.formData.email ≠ "" ∧ creatingBob.formData.password ≠ "" ∧
    createResetRefresh (handleSubmit creatingBob (.ok ()) (.ok [alice])) :=
  ⟨rfl, by decide, by decide, by decide,
    handleSubmit_create_order creatingBob (.ok [alice]) rfl (by decide) (by decide)
      (by decide)⟩

/-- C7: whatever the cache held and whatever the outcome of the list request,
after `fetchUsers` the loading flag is false; on success the cached records are
the returned sequence, in the returned order; on failure they are the records
cached before the call. -/
theorem fetchUsers_result (s : State) (res : Except HttpError (List UserRecord)) :
    (s.after (fetchUsers res)).loading = false ∧
    (∀ data, res = .ok data → (s.after (fetchUsers res)).users = data) ∧
    (∀ err, res = .error err → (s.after (fetchUsers res)).users = s.users) := by
  cases res <;> simp [fetchUsers, State.after, applyEvent]

/-- C8: with the confirmation declined, `handleDelete` does nothing but ask:
no network call, no notice, and the state after it (cached records, loading
flag, draft, mode, selected identifier) is the state before it. -/
theorem handleDelete_declined (s : State) (id : Identifier) (res : Except HttpError Unit)
    (list : Except HttpError (List UserRecord)) :
    handleDelete id false res list
      = [.confirm "Are you sure you want to delete this user?"] ∧
    requests (handleDelete id false res list) = [] ∧
    (handleDelete id false res list).filter Event.isNotice = [] ∧
    s.after (handleDelete id false res list) = s := by
  simp [handleDelete, requests, Event.isRequest, Event.isNotice, State.after, applyEvent]

/-- An operation keeps the session invariant. -/
theorem sessionInv_step (s : State) (op : Op) (h : sessionInv s) :
    sessionInv (step s op) := by
  unfold sessionInv at h ⊢
  cases op with
  | beginEdit r => simp [step, Op.events, startEdit, State.after, applyEvent]
  | reset => simp [step, Op.events, resetForm, State.after, applyEvent]
  | updateField k v =>
    simpa [step, Op.events, updateField, State.after, applyEvent] using h
  | submit res list =>
    cases res with
    | error err =>
      simp only [step, Op.events, handleSubmit, State.after, List.cons_append,
        List.nil_append, List.foldl_cons, List.foldl_nil, applyEvent_submitRequest]
      simpa [applyEvent] using h
    | ok u =>
      cases list <;>
        simp [step, Op.events, handleSubmit, resetForm, fetchUsers, State.after, applyEvent]
  | remove id confirmed res list =>
    cases confirmed <;> cases res <;> cases list <;>
      simpa [step, Op.events, handleDelete, fetchUsers, State.after, applyEvent] using h
  | refresh list =>
    cases list <;>
      simpa [step, Op.events, fetchUsers, State.after, applyEvent] using h

/-- A sequence of operations keeps the session invariant. -/
theorem sessionInv_run (ops : List Op) (s : State) (h : sessionInv s) :
    sessionInv (run s ops) := by
  induction ops generalizing s with
  | nil => simpa [run] using h
  | cons op ops ih =>
    have := ih (step s op) (sessionInv_step s op h)
    simpa [run] using this

/-- A segment keeps the session invariant. -/
theorem sessionInv_stepSegment (s : State) (g : Segment) (h : sessionInv s) :
    sessionInv (stepSegment s g) := by
  unfold sessionInv at h ⊢
  cases g with
  | fetchStart =>
    simpa [stepSegment, Segment.events, fetchUsersStart, State.after, applyEvent] using h
  | fetchSettled list =>
    cases list <;>
      simpa [stepSegment, Segment.events, fetchUsersSettled, State.after, applyEvent] using h
  | startEdit user =>
    simp [stepSegment, Segment.events, startEdit, State.after, applyEvent]
  | resetForm => simp [stepSegment, Segment.events, resetForm, State.after, applyEvent]
  | change k v =>
    simpa [stepSegment, Segment.events, updateField, State.after, applyEvent] using h
  | submitStart =>
    simp only [stepSegment, Segment.events, handleSubmitStart, State.after,
      List.foldl_cons, List.foldl_nil, applyEvent_submitRequest]
    simpa [applyEvent] using h
  | submitSettled res =>
    cases res with
    | error err =>
      simpa [stepSegment, Segment.events, handleSubmitSettled, State.after, applyEvent]
        using h
    | ok u =>
      simp [stepSegment, Segment.events, handleSubmitSettled, resetForm, fetchUsersStart,
        State.after, applyEvent]
  | deleteStart id confirmed =>
    cases confirmed <;>
      simpa [stepSegment, Segment.events, handleDeleteStart, State.after, applyEvent]
        using h
  | deleteSettled res =>
    cases res <;>
      simpa [stepSegment, Segment.events, handleDeleteSettled, fetchUsersStart, State.after,
        applyEvent] using h

/-- A sequence of segments keeps the session invariant. -/
theorem sessionInv_runSegments (gs : List Segment) (s : State) (h : sessionInv s) :
    sessionInv (runSegments s gs) := by
  induction gs generalizing s with
  | nil => simpa [runSegments] using h
  | cons g gs ih =>
    have := ih (stepSegment s g) (sessionInv_stepSegment s g h)
    simpa [runSegments] using this

/-- The events of an operation are the events of its segments, the first of
which runs in the state the operation starts in; the later ones read no
state. -/
theorem Op.events_eq_segments (s : State) (op : Op) :
    op.events s = op.segments.flatMap (Segment.events s) := by
  cases op with
  | beginEdit r => simp [Op.events, Op.segments, Segment.events]
  | reset => simp [Op.events, Op.segments, Segment.events]
  | updateField k v => simp [Op.events, Op.segments, Segment.events]
  | submit res list =>
    cases res <;>
      simp [Op.events, Op.segments, Segment.events, handleSubmit, handleSubmitStart,
        handleSubmitSettled, fetchUsers, fetchUsersStart, fetchUsersSettled]
  | remove id confirmed res list =>
    cases confirmed <;> cases res <;>
      simp [Op.events, Op.segments, Segment.events, handleDelete, handleDeleteStart,
        handleDeleteSettled, fetchUsers, fetchUsersStart, fetchUsersSettled]
  | refresh list =>
    simp [Op.events, Op.segments, Segment.events, fetchUsers, fetchUsersStart,
      fetchUsersSettled]

/-- C9: the session invariant (create mode exactly when no identifier is
selected) holds in the initial state, every operation preserves it (`startEdit`
on any record, `resetForm`, an input change, `handleSubmit` with success or
failure, `handleDelete`, `fetchUsers`), and so it holds after every sequence of
operations from the initial state. It also holds when the handlers interleave:
after every sequence of their uninterrupted segments. -/
theorem sessionInv_reachable :
    sessionInv initialState ∧
    (∀ s op, sessionInv s → sessionInv (step s op)) ∧
    (∀ ops, sessionInv (run initialState ops)) ∧
    (∀ gs, sessionInv (runSegments initialState gs)) := by
  have h0 : sessionInv initialState := by simp [sessionInv, initialState]
  exact ⟨h0, sessionInv_step, fun ops => sessionInv_run ops initialState h0,
    fun gs => sessionInv_runSegments gs initialState h0⟩

/-- C10 as stated fails: `startEdit` does not keep the draft's username; from
the initial state, where it is empty, it becomes the record's username. -/
theorem startEdit_overwrites_username :
    (initialState.after (startEdit alice)).formData.username
      ≠ initialState.formData.username ∧
    (initialState.after (startEdit alice)).formData.username = "alice" := by
  decide

/-- C10, amended: from any state, `startEdit record` yields edit mode, the
record's identifier as selected identifier, a draft whose email, firstname and
lastname are the record's, whose password is empty, and whose username is the
record's username. -/
theorem startEdit_result (s : State) (record : UserRecord) :
    (s.after (startEdit record)).isEditing = true ∧
    (s.after (startEdit record)).selectedId = some record._id ∧
    (s.after (startEdit record)).formData.email = record.email ∧
    (s.after (startEdit record)).formData.firstname = record.firstname ∧
    (s.after (startEdit record)).formData.lastname = record.lastname ∧
    (s.after (startEdit record)).formData.password = "" ∧
    (s.after (startEdit record)).formData.username = record.username := by
  simp [startEdit, State.after, applyEvent, jsOr_empty]

end UserManagement
